import Mathlib

/-!
Verification of the KMTronic 4-channel relay driver
(`RelayControllerStandalone` and the cached relay states kept by
`ModernRelayDashboard` in `Kmtronicrelay4channel.py`).

The serial transport is modelled as a fake port with per-operation fault
injection, mirroring the spec's "fake transport" test strategy:
`Faults` says which transport operations raise, `SerialPort` records the
buffers and a log of every byte handed to `write` (the wire).  Delays
(`time.sleep`) have no observable effect on the state and are omitted;
the bytes the board delivers within the read timeout are the `arriving`
field of the port.
-/

namespace KMRelay

/-- Fault-injection environment for the fake serial transport: each flag
makes the corresponding transport operation raise. -/
structure Faults where
  openFails : Bool
  resetInputFails : Bool
  resetOutputFails : Bool
  writeFails : Bool
  flushFails : Bool
  readFails : Bool
  closeFails : Bool
deriving DecidableEq, Repr

/-- The fault-free transport environment. -/
def noFaults : Faults :=
  { openFails := false, resetInputFails := false, resetOutputFails := false,
    writeFails := false, flushFails := false, readFails := false, closeFails := false }

/-- Which transport operation raised (the `cause` of a wrapped Python exception). -/
inductive PortError where
  | openErr
  | resetInputErr
  | resetOutputErr
  | writeErr
  | flushErr
  | readErr
  | closeErr
deriving DecidableEq, Repr

/-- Fake serial port.  `inBuf` is the input buffer currently holding stale
bytes (`in_waiting` is its length), `arriving` the bytes the board delivers
within the read timeout, `outPending` the unflushed output bytes
(`out_waiting`), and `wire` the log of every byte passed to `write`. -/
structure SerialPort where
  is_open : Bool
  inBuf : List Nat
  arriving : List Nat
  outPending : Nat
  wire : List Nat
deriving DecidableEq, Repr

def SerialPort.in_waiting (p : SerialPort) : Nat := p.inBuf.length

def SerialPort.out_waiting (p : SerialPort) : Nat := p.outPending

/-- `reset_input_buffer`: discards bytes already buffered for input. -/
def SerialPort.reset_input_buffer (p : SerialPort) (f : Faults) :
    Except (PortError × SerialPort) SerialPort :=
  if f.resetInputFails then Except.error (PortError.resetInputErr, p)
  else Except.ok { p with inBuf := [] }

/-- `reset_output_buffer`: discards unflushed output bytes. -/
def SerialPort.reset_output_buffer (p : SerialPort) (f : Faults) :
    Except (PortError × SerialPort) SerialPort :=
  if f.resetOutputFails then Except.error (PortError.resetOutputErr, p)
  else Except.ok { p with outPending := 0 }

/-- `write`: hands the bytes to the transport; they are logged on the wire
and counted as pending until flushed. -/
def SerialPort.write (p : SerialPort) (f : Faults) (bs : List Nat) :
    Except (PortError × SerialPort) SerialPort :=
  if f.writeFails then Except.error (PortError.writeErr, p)
  else Except.ok { p with wire := p.wire ++ bs, outPending := p.outPending + bs.length }

/-- `flush`: forces pending output onto the wire. -/
def SerialPort.flush (p : SerialPort) (f : Faults) :
    Except (PortError × SerialPort) SerialPort :=
  if f.flushFails then Except.error (PortError.flushErr, p)
  else Except.ok { p with outPending := 0 }

/-- `read n`: returns up to `n` bytes among those buffered plus those the
board delivers within the read timeout. -/
def SerialPort.read (p : SerialPort) (f : Faults) (n : Nat) :
    Except (PortError × SerialPort) (SerialPort × List Nat) :=
  if f.readFails then Except.error (PortError.readErr, p)
  else
    let avail := p.inBuf ++ p.arriving
    Except.ok ({ p with inBuf := avail.drop n, arriving := [] }, avail.take n)

/-- `close`: marks the port closed (a failing close leaves it open). -/
def SerialPort.close (p : SerialPort) (f : Faults) :
    Except (PortError × SerialPort) SerialPort :=
  if f.closeFails then Except.error (PortError.closeErr, p)
  else Except.ok { p with is_open := false }

/-- The exceptions the Python driver raises: `notConnected` is
`Exception("Not connected to relay board")`, `invalidChannel` is
`ValueError("Relay number must be between 1 and 4")`, the `Failed` forms
are the wrapped messages carrying the relay number or device id together
with the underlying cause, and `raw` is an unwrapped transport exception
(as propagated by `disconnect`). -/
inductive PyError where
  | notConnected
  | invalidChannel
  | turnOnFailed (relay : Int) (cause : PortError)
  | turnOffFailed (relay : Int) (cause : PortError)
  | connectFailed (device : String) (cause : PortError)
  | raw (cause : PortError)
deriving DecidableEq, Repr

/-- State of a `RelayControllerStandalone` object.  `closeCalls` is ghost
instrumentation of the fake transport counting how often `close` was
invoked (for the no-handle-leak and no-duplicate-close properties). -/
structure Controller where
  com_port : String
  baudrate : Nat
  timeout_ms : Nat
  connection : Option SerialPort
  is_connected : Bool
  closeCalls : Nat
deriving DecidableEq, Repr

/-- `RelayControllerStandalone.__init__(com_port)` with the default
baudrate 9600 and timeout 2.5 s. -/
def initController (port : String) : Controller :=
  { com_port := port, baudrate := 9600, timeout_ms := 2500,
    connection := none, is_connected := false, closeCalls := 0 }

/-- `RelayControllerStandalone.connect`.  `fresh` is the port handle the
environment returns from a successful `serial.Serial(...)` open.  On any
failure the except-handler closes the handle stored in `self.connection`
(if any, swallowing a close failure) and nulls it, then re-raises a
wrapped exception carrying the device id and the cause. -/
def connect (f : Faults) (fresh : SerialPort) (st : Controller) :
    Controller × Except PyError Bool :=
  let fail : Controller → PortError → Controller × Except PyError Bool :=
    fun stE cause =>
      match stE.connection with
      | some _ =>
          ({ stE with connection := none, closeCalls := stE.closeCalls + 1 },
           Except.error (PyError.connectFailed stE.com_port cause))
      | none => (stE, Except.error (PyError.connectFailed stE.com_port cause))
  if f.openFails then fail st PortError.openErr
  else
    let st1 := { st with connection := some fresh }
    match fresh.reset_input_buffer f with
    | Except.error (e, p) => fail { st1 with connection := some p } e
    | Except.ok p1 =>
      match p1.reset_output_buffer f with
      | Except.error (e, p) => fail { st1 with connection := some p } e
      | Except.ok p2 =>
          ({ st1 with connection := some p2, is_connected := true }, Except.ok true)

/-- `RelayControllerStandalone.disconnect`: closes the handle only when it
is present and open; the `close` call is not wrapped, so its failure
propagates. -/
def disconnect (f : Faults) (st : Controller) : Controller × Except PyError Unit :=
  match st.connection with
  | none => (st, Except.ok ())
  | some p =>
    if p.is_open then
      match p.close f with
      | Except.error (e, _) =>
          ({ st with closeCalls := st.closeCalls + 1 }, Except.error (PyError.raw e))
      | Except.ok p1 =>
          ({ st with connection := some p1, is_connected := false,
                     closeCalls := st.closeCalls + 1 }, Except.ok ())
    else (st, Except.ok ())

/-- The `try`-block body shared by `turn_on` and `turn_off`: clears a
non-empty output buffer, writes the command frame, flushes. -/
def writeTransaction (f : Faults) (p : SerialPort) (cmd : List Nat) :
    Except (PortError × SerialPort) SerialPort :=
  match (if p.out_waiting > 0 then p.reset_output_buffer f else Except.ok p) with
  | Except.error e => Except.error e
  | Except.ok p1 =>
    match p1.write f cmd with
    | Except.error e => Except.error e
    | Except.ok p2 => p2.flush f

/-- `RelayControllerStandalone.turn_on`: guards, then clears a non-empty
output buffer, writes the frame `[0xFF, relay, 0x01]` and flushes; any
transport failure is wrapped into `turnOnFailed`. -/
def turn_on (f : Faults) (st : Controller) (relay_number : Int) :
    Controller × Except PyError Unit :=
  if st.is_connected = false ∨ st.connection = none then
    (st, Except.error PyError.notConnected)
  else if ¬(1 ≤ relay_number ∧ relay_number ≤ 4) then
    (st, Except.error PyError.invalidChannel)
  else
    match st.connection with
    | none => (st, Except.error PyError.notConnected)
    | some p =>
      match writeTransaction f p [0xFF, relay_number.toNat, 0x01] with
      | Except.error (e, pE) =>
          ({ st with connection := some pE },
           Except.error (PyError.turnOnFailed relay_number e))
      | Except.ok p3 => ({ st with connection := some p3 }, Except.ok ())

/-- `RelayControllerStandalone.turn_off`: as `turn_on` with data byte
`0x00`, wrapping failures into `turnOffFailed`. -/
def turn_off (f : Faults) (st : Controller) (relay_number : Int) :
    Controller × Except PyError Unit :=
  if st.is_connected = false ∨ st.connection = none then
    (st, Except.error PyError.notConnected)
  else if ¬(1 ≤ relay_number ∧ relay_number ≤ 4) then
    (st, Except.error PyError.invalidChannel)
  else
    match st.connection with
    | none => (st, Except.error PyError.notConnected)
    | some p =>
      match writeTransaction f p [0xFF, relay_number.toNat, 0x00] with
      | Except.error (e, pE) =>
          ({ st with connection := some pE },
           Except.error (PyError.turnOffFailed relay_number e))
      | Except.ok p3 => ({ st with connection := some p3 }, Except.ok ())

/-- The dict comprehension of `get_status`:
`{f"R{i}": "ON" if byte == 1 else "OFF" for i, byte in enumerate(response, start=1)}`. -/
def decodeStatus (start : Nat) : List Nat → List (String × String)
  | [] => []
  | b :: rest =>
      ("R" ++ toString start, if b = 1 then "ON" else "OFF") :: decodeStatus (start + 1) rest

/-- The `try`-block body of `get_status`: clears a non-empty input
buffer, sends the status request `[0xFF, 0x09, 0x00]`, flushes, reads 4
bytes. -/
def statusTransaction (f : Faults) (p : SerialPort) :
    Except (PortError × SerialPort) (SerialPort × List Nat) :=
  match (if p.in_waiting > 0 then p.reset_input_buffer f else Except.ok p) with
  | Except.error e => Except.error e
  | Except.ok p1 =>
    match p1.write f [0xFF, 0x09, 0x00] with
    | Except.error e => Except.error e
    | Except.ok p2 =>
      match p2.flush f with
      | Except.error e => Except.error e
      | Except.ok p3 => p3.read f 4

/-- `RelayControllerStandalone.get_status`: returns `{}` when not
connected; otherwise clears a non-empty input buffer, sends
`[0xFF, 0x09, 0x00]`, flushes, reads 4 bytes, and decodes a full 4-byte
response; every shorter response and every transport exception yields
`{}`. -/
def get_status (f : Faults) (st : Controller) : Controller × List (String × String) :=
  if st.is_connected = false ∨ st.connection = none then (st, [])
  else
    match st.connection with
    | none => (st, [])
    | some p =>
      match statusTransaction f p with
      | Except.error (_, pE) => ({ st with connection := some pE }, [])
      | Except.ok (p4, response) =>
          if response.length = 4 then
            ({ st with connection := some p4 }, decodeStatus 1 response)
          else ({ st with connection := some p4 }, [])

/-- The dashboard's cached relay view (`self.relay_states`, a dict keyed
1..4, read with default `False`). -/
structure RelayStates where
  r1 : Bool
  r2 : Bool
  r3 : Bool
  r4 : Bool
deriving DecidableEq, Repr

/-- `self.relay_states.get(n, False)`. -/
def RelayStates.get (s : RelayStates) (n : Int) : Bool :=
  if n = 1 then s.r1
  else if n = 2 then s.r2
  else if n = 3 then s.r3
  else if n = 4 then s.r4
  else false

/-- `self.relay_states[n] = b` (the dashboard only assigns after a channel
number has been validated by `turn_on`/`turn_off`, so only keys 1..4 are
ever stored). -/
def RelayStates.set (s : RelayStates) (n : Int) (b : Bool) : RelayStates :=
  if n = 1 then { s with r1 := b }
  else if n = 2 then { s with r2 := b }
  else if n = 3 then { s with r3 := b }
  else if n = 4 then { s with r4 := b }
  else s

/-- State of the `ModernRelayDashboard` that is relevant to the cached
relay view: the controller it owns and `self.relay_states`. -/
structure Dashboard where
  controller : Option Controller
  relay_states : RelayStates
deriving DecidableEq, Repr

/-- `ModernRelayDashboard.turn_relay_on`: returns unchanged when there is
no connected controller; on success of `turn_on` sets the cached state to
`True`; on an exception only shows an error box (cache untouched). -/
def turn_relay_on (f : Faults) (d : Dashboard) (relay_num : Int) : Dashboard :=
  match d.controller with
  | none => d
  | some ctrl =>
    if ctrl.is_connected = false then d
    else
      match turn_on f ctrl relay_num with
      | (ctrl1, Except.ok _) =>
          { controller := some ctrl1,
            relay_states := d.relay_states.set relay_num true }
      | (ctrl1, Except.error _) => { d with controller := some ctrl1 }

/-- `ModernRelayDashboard.turn_relay_off`: as `turn_relay_on` with `False`. -/
def turn_relay_off (f : Faults) (d : Dashboard) (relay_num : Int) : Dashboard :=
  match d.controller with
  | none => d
  | some ctrl =>
    if ctrl.is_connected = false then d
    else
      match turn_off f ctrl relay_num with
      | (ctrl1, Except.ok _) =>
          { controller := some ctrl1,
            relay_states := d.relay_states.set relay_num false }
      | (ctrl1, Except.error _) => { d with controller := some ctrl1 }

/-- One status-decode update of the cache for key `R{n}`:
`if key in statuses: self.relay_states[n] = statuses[key] == "ON"`. -/
def applyStatus (statuses : List (String × String)) (s : RelayStates) (n : Int) :
    RelayStates :=
  match statuses.lookup ("R" ++ toString n) with
  | some v => s.set n (v == "ON")
  | none => s

/-- One iteration of `ModernRelayDashboard.update_status_loop` while the
loop is running: polls `get_status` and folds the decoded mapping into the
cache for channels 1..4 in order. -/
def update_status_step (f : Faults) (d : Dashboard) : Dashboard :=
  match d.controller with
  | none => d
  | some ctrl =>
    if ctrl.is_connected = false then d
    else
      match get_status f ctrl with
      | (ctrl1, statuses) =>
          { controller := some ctrl1,
            relay_states :=
              applyStatus statuses
                (applyStatus statuses
                  (applyStatus statuses
                    (applyStatus statuses d.relay_states 1) 2) 3) 4 }

/-- The dashboard operations that touch the cached relay view. -/
inductive DashOp where
  | relayOn (f : Faults) (n : Int)
  | relayOff (f : Faults) (n : Int)
  | statusStep (f : Faults)
deriving Repr

/-- Interpretation of one dashboard operation. -/
def dashStep : DashOp → Dashboard → Dashboard
  | DashOp.relayOn f n, d => turn_relay_on f d n
  | DashOp.relayOff f n, d => turn_relay_off f d n
  | DashOp.statusStep f, d => update_status_step f d

/-- Interpretation of a sequence of dashboard operations. -/
def dashRun (ops : List DashOp) (d : Dashboard) : Dashboard :=
  ops.foldl (fun d op => dashStep op d) d

/-- `op`, taken in state `d`, is neither a write to channel `ch` nor a
status decode that assigns channel `ch` (its decoded mapping has no key
`R{ch}`). -/
def avoidsChannel (op : DashOp) (d : Dashboard) (ch : Int) : Prop :=
  match op with
  | DashOp.relayOn _ n => n ≠ ch
  | DashOp.relayOff _ n => n ≠ ch
  | DashOp.statusStep f =>
    match d.controller with
    | none => True
    | some ctrl => ((get_status f ctrl).2).lookup ("R" ++ toString ch) = none

/-- Every operation of the trace, in the state where it runs, avoids
channel `ch`. -/
def traceAvoidsChannel (ch : Int) : List DashOp → Dashboard → Prop
  | [], _ => True
  | op :: ops, d => avoidsChannel op d ch ∧ traceAvoidsChannel ch ops (dashStep op d)

/-- The controller-level operations, for traces of the driver object. -/
inductive CtrlOp where
  | connectOp (f : Faults) (fresh : SerialPort)
  | disconnectOp (f : Faults)
  | turnOnOp (f : Faults) (n : Int)
  | turnOffOp (f : Faults) (n : Int)
  | statusOp (f : Faults)
deriving Repr

/-- Interpretation of one controller operation (the resulting object
state; raised exceptions do not interrupt the trace). -/
def ctrlStep : CtrlOp → Controller → Controller
  | CtrlOp.connectOp f fresh, st => (connect f fresh st).1
  | CtrlOp.disconnectOp f, st => (disconnect f st).1
  | CtrlOp.turnOnOp f n, st => (turn_on f st n).1
  | CtrlOp.turnOffOp f n, st => (turn_off f st n).1
  | CtrlOp.statusOp f, st => (get_status f st).1

/-- Interpretation of a sequence of controller operations. -/
def ctrlRun (ops : List CtrlOp) (st : Controller) : Controller :=
  ops.foldl (fun st op => ctrlStep op st) st

/-- Every `connect` of the trace is invoked while `is_connected` is
false (the state-machine discipline of the dashboard, which builds a
fresh controller for each connection attempt). -/
def connectsOnlyWhenDisconnected : List CtrlOp → Controller → Prop
  | [], _ => True
  | op :: ops, st =>
    (match op with
     | CtrlOp.connectOp _ _ => st.is_connected = false
     | _ => True) ∧ connectsOnlyWhenDisconnected ops (ctrlStep op st)

/-- The handle invariant: a connected driver holds a handle. -/
def handleInv (st : Controller) : Prop :=
  st.is_connected = true → st.connection ≠ none

/-- A fresh open port handle with clean buffers, as returned by a
successful open in the nominal environment. -/
def freshPort : SerialPort :=
  { is_open := true, inBuf := [], arriving := [], outPending := 0, wire := [] }

/-- A controller that has successfully connected on the nominal
transport: `ctrlRun [connectOp noFaults freshPort] (initController "COM1")`. -/
def sampleConnected : Controller :=
  { com_port := "COM1", baudrate := 9600, timeout_ms := 2500,
    connection := some freshPort, is_connected := true, closeCalls := 0 }

/-- The spec's `setChannel(channel, on)`: the source implements it as the
pair of methods `turn_on`/`turn_off`, selected by `on`. -/
def setChannel (f : Faults) (st : Controller) (ch : Int) (isOn : Bool) :
    Controller × Except PyError Unit :=
  if isOn then turn_on f st ch else turn_off f st ch

/-- Transport environment where only `close` raises. -/
def closeFailFaults : Faults := { noFaults with closeFails := true }

/-- Transport environment where only opening the device raises. -/
def openFailFaults : Faults := { noFaults with openFails := true }

/-- Transport environment where only `write` raises. -/
def writeFailFaults : Faults := { noFaults with writeFails := true }

/-- A dashboard owning a freshly connected controller, with all cached
relay states at their initial `False`. -/
def sampleDashboard : Dashboard :=
  { controller := some sampleConnected,
    relay_states := { r1 := false, r2 := false, r3 := false, r4 := false } }

/-! ## Helper lemmas -/

theorem RelayStates.get_set_self (s : RelayStates) (n : Int) (b : Bool)
    (h : 1 ≤ n ∧ n ≤ 4) : (s.set n b).get n = b := by
  obtain ⟨h1, h4⟩ := h
  interval_cases n <;> simp [RelayStates.set, RelayStates.get]

theorem RelayStates.get_set_ne (s : RelayStates) (m n : Int) (b : Bool)
    (h : m ≠ n) : (s.set m b).get n = s.get n := by
  unfold RelayStates.set RelayStates.get
  split_ifs <;> simp_all

theorem decodeStatus_length (start : Nat) (l : List Nat) :
    (decodeStatus start l).length = l.length := by
  induction l generalizing start with
  | nil => rfl
  | cons b rest ih => simp [decodeStatus, ih]

theorem turn_on_ok_valid (f : Faults) (st : Controller) (ch : Int)
    (h : (turn_on f st ch).2 = Except.ok ()) : 1 ≤ ch ∧ ch ≤ 4 := by
  by_contra hch
  unfold turn_on at h
  split at h
  · simp at h
  · simp [hch] at h

theorem rkey1 : "R" ++ toString (1 : Nat) = "R1" := rfl

theorem rkey2 : "R" ++ toString (2 : Nat) = "R2" := rfl

theorem rkey3 : "R" ++ toString (3 : Nat) = "R3" := rfl

theorem rkey4 : "R" ++ toString (4 : Nat) = "R4" := rfl

theorem statusTransaction_ok_resp (f : Faults) (p p4 : SerialPort) (response : List Nat)
    (h : statusTransaction f p = Except.ok (p4, response)) :
    response = p.arriving.take 4 := by
  unfold statusTransaction at h
  by_cases hin : p.in_waiting > 0
  · rw [if_pos hin] at h
    unfold SerialPort.reset_input_buffer SerialPort.write SerialPort.flush
      SerialPort.read at h
    split_ifs at h <;> simp_all
  · have hnil : p.inBuf = [] := by
      have h0 : ¬ 0 < p.inBuf.length := by simpa [SerialPort.in_waiting] using hin
      exact List.length_eq_zero.mp (Nat.eq_zero_of_not_pos h0)
    rw [if_neg hin] at h
    unfold SerialPort.write SerialPort.flush SerialPort.read at h
    split_ifs at h <;> simp_all

theorem statusTransaction_error_of_fault (f : Faults) (p : SerialPort)
    (hfault : f.writeFails = true ∨ f.flushFails = true ∨ f.readFails = true ∨
      (f.resetInputFails = true ∧ 0 < p.inBuf.length)) :
    ∃ e pE, statusTransaction f p = Except.error (e, pE) := by
  unfold statusTransaction
  by_cases hin : p.in_waiting > 0 <;>
    by_cases hri : f.resetInputFails <;>
    by_cases hw : f.writeFails <;>
    by_cases hfl : f.flushFails <;>
    by_cases hr : f.readFails <;>
    simp_all [SerialPort.reset_input_buffer, SerialPort.write, SerialPort.flush,
      SerialPort.read, SerialPort.in_waiting]

theorem writeTransaction_error_of_fault (f : Faults) (p : SerialPort) (cmd : List Nat)
    (hfault : f.writeFails = true ∨ f.flushFails = true ∨
      (f.resetOutputFails = true ∧ 0 < p.outPending)) :
    ∃ e pE, writeTransaction f p cmd = Except.error (e, pE) := by
  unfold writeTransaction
  by_cases ho : 0 < p.outPending <;>
    by_cases hro : f.resetOutputFails <;>
    by_cases hw : f.writeFails <;>
    by_cases hfl : f.flushFails <;>
    simp_all [SerialPort.reset_output_buffer, SerialPort.write, SerialPort.flush,
      SerialPort.out_waiting]

theorem get_status_conn (f : Faults) (st : Controller) (p : SerialPort)
    (hg : ¬(st.is_connected = false ∨ st.connection = none))
    (hp : st.connection = some p) :
    get_status f st =
      match statusTransaction f p with
      | Except.error (_, pE) => ({ st with connection := some pE }, [])
      | Except.ok (p4, response) =>
          if response.length = 4 then
            ({ st with connection := some p4 }, decodeStatus 1 response)
          else ({ st with connection := some p4 }, []) := by
  unfold get_status
  rw [if_neg hg, hp]

theorem turn_on_conn (f : Faults) (st : Controller) (p : SerialPort) (ch : Int)
    (hg : ¬(st.is_connected = false ∨ st.connection = none))
    (hch : 1 ≤ ch ∧ ch ≤ 4) (hp : st.connection = some p) :
    turn_on f st ch =
      match writeTransaction f p [0xFF, ch.toNat, 0x01] with
      | Except.error (e, pE) =>
          ({ st with connection := some pE },
           Except.error (PyError.turnOnFailed ch e))
      | Except.ok p3 => ({ st with connection := some p3 }, Except.ok ()) := by
  unfold turn_on
  rw [if_neg hg, if_neg (not_not_intro hch), hp]

theorem disconnect_none (f : Faults) (st : Controller) (h : st.connection = none) :
    disconnect f st = (st, Except.ok ()) := by
  unfold disconnect
  rw [h]

theorem disconnect_some (f : Faults) (st : Controller) (p : SerialPort)
    (h : st.connection = some p) :
    disconnect f st =
      (if p.is_open then
        match p.close f with
        | Except.error (e, _) =>
            ({ st with closeCalls := st.closeCalls + 1 }, Except.error (PyError.raw e))
        | Except.ok p1 =>
            ({ st with connection := some p1, is_connected := false,
                       closeCalls := st.closeCalls + 1 }, Except.ok ())
      else (st, Except.ok ())) := by
  unfold disconnect
  rw [h]

theorem turn_off_conn (f : Faults) (st : Controller) (p : SerialPort) (ch : Int)
    (hg : ¬(st.is_connected = false ∨ st.connection = none))
    (hch : 1 ≤ ch ∧ ch ≤ 4) (hp : st.connection = some p) :
    turn_off f st ch =
      match writeTransaction f p [0xFF, ch.toNat, 0x00] with
      | Except.error (e, pE) =>
          ({ st with connection := some pE },
           Except.error (PyError.turnOffFailed ch e))
      | Except.ok p3 => ({ st with connection := some p3 }, Except.ok ()) := by
  unfold turn_off
  rw [if_neg hg, if_neg (not_not_intro hch), hp]

theorem applyStatus_get_ne (sts : List (String × String)) (s : RelayStates)
    (n ch : Int) (h : n ≠ ch) : (applyStatus sts s n).get ch = s.get ch := by
  unfold applyStatus
  cases sts.lookup ("R" ++ toString n) with
  | none => rfl
  | some v => exact RelayStates.get_set_ne s n ch (v == "ON") h

theorem applyStatus_get_preserve (sts : List (String × String)) (s : RelayStates)
    (n ch : Int) (h : sts.lookup ("R" ++ toString ch) = none) :
    (applyStatus sts s n).get ch = s.get ch := by
  by_cases hn : n = ch
  · subst hn
    unfold applyStatus
    rw [h]
  · exact applyStatus_get_ne sts s n ch hn

theorem dashStep_avoids_get (op : DashOp) (d : Dashboard) (ch : Int)
    (h : avoidsChannel op d ch) :
    (dashStep op d).relay_states.get ch = d.relay_states.get ch := by
  cases op with
  | relayOn f n =>
    have hn : n ≠ ch := h
    show (turn_relay_on f d n).relay_states.get ch = d.relay_states.get ch
    unfold turn_relay_on
    rcases hctrl : d.controller with _ | ctrl
    · rfl
    · by_cases hc : ctrl.is_connected = false
      · simp [hc]
      · simp only [hc, ite_false, Bool.false_eq_true, if_false]
        rcases hres : turn_on f ctrl n with ⟨c1, r⟩
        cases r with
        | error e => simp
        | ok u => simp [RelayStates.get_set_ne d.relay_states n ch true hn]
  | relayOff f n =>
    have hn : n ≠ ch := h
    show (turn_relay_off f d n).relay_states.get ch = d.relay_states.get ch
    unfold turn_relay_off
    rcases hctrl : d.controller with _ | ctrl
    · rfl
    · by_cases hc : ctrl.is_connected = false
      · simp [hc]
      · simp only [hc, ite_false, Bool.false_eq_true, if_false]
        rcases hres : turn_off f ctrl n with ⟨c1, r⟩
        cases r with
        | error e => simp
        | ok u => simp [RelayStates.get_set_ne d.relay_states n ch false hn]
  | statusStep f =>
    show (update_status_step f d).relay_states.get ch = d.relay_states.get ch
    unfold update_status_step
    rcases hctrl : d.controller with _ | ctrl
    · rfl
    · have h2 : ((get_status f ctrl).2).lookup ("R" ++ toString ch) = none := by
        unfold avoidsChannel at h
        rw [hctrl] at h
        exact h
      by_cases hc : ctrl.is_connected = false
      · simp [hc]
      · simp only [hc, ite_false, Bool.false_eq_true, if_false]
        rcases hgs : get_status f ctrl with ⟨c1, sts⟩
        simp only [hgs] at h2
        simp only [Bool.true_eq_false, if_false, ite_false]
        rw [applyStatus_get_preserve sts _ 4 ch h2,
            applyStatus_get_preserve sts _ 3 ch h2,
            applyStatus_get_preserve sts _ 2 ch h2,
            applyStatus_get_preserve sts _ 1 ch h2]

theorem dashRun_preserves_get (ch : Int) (ops : List DashOp) :
    ∀ d, traceAvoidsChannel ch ops d →
      (dashRun ops d).relay_states.get ch = d.relay_states.get ch := by
  induction ops with
  | nil =>
    intro d _
    rfl
  | cons op ops ih =>
    intro d h
    obtain ⟨h1, h2⟩ := h
    show (dashRun ops (dashStep op d)).relay_states.get ch = d.relay_states.get ch
    rw [ih (dashStep op d) h2, dashStep_avoids_get op d ch h1]

theorem turn_relay_on_conn (f : Faults) (d : Dashboard) (ctrl : Controller) (n : Int)
    (hd : d.controller = some ctrl) (hconn : ctrl.is_connected = true) :
    turn_relay_on f d n =
      match turn_on f ctrl n with
      | (ctrl1, Except.ok _) =>
          { controller := some ctrl1, relay_states := d.relay_states.set n true }
      | (ctrl1, Except.error _) => { d with controller := some ctrl1 } := by
  unfold turn_relay_on
  rw [hd]
  simp [hconn]

theorem connect_inv_step (f : Faults) (fresh : SerialPort) (st : Controller)
    (hdisc : st.is_connected = false) : handleInv (connect f fresh st).1 := by
  intro hc
  by_cases ho : f.openFails = true
  · exfalso
    have his : (connect f fresh st).1.is_connected = false := by
      rcases hcon : st.connection with _ | p <;> simp [connect, ho, hcon, hdisc]
    rw [his] at hc
    exact absurd hc (by simp)
  · by_cases hri : f.resetInputFails = true
    · exfalso
      have his : (connect f fresh st).1.is_connected = false := by
        simp [connect, ho, hri, SerialPort.reset_input_buffer, hdisc]
      rw [his] at hc
      exact absurd hc (by simp)
    · by_cases hro : f.resetOutputFails = true
      · exfalso
        have his : (connect f fresh st).1.is_connected = false := by
          simp [connect, ho, hri, hro, SerialPort.reset_input_buffer,
            SerialPort.reset_output_buffer, hdisc]
        rw [his] at hc
        exact absurd hc (by simp)
      · simp [connect, ho, hri, hro, SerialPort.reset_input_buffer,
          SerialPort.reset_output_buffer]

theorem disconnect_inv_step (f : Faults) (st : Controller)
    (hinv : handleInv st) : handleInv (disconnect f st).1 := by
  intro hc
  rcases hcon : st.connection with _ | p
  · rw [disconnect_none f st hcon] at hc ⊢
    exact hinv hc
  · rw [disconnect_some f st p hcon] at hc ⊢
    by_cases ho : p.is_open
    · rw [if_pos ho] at hc ⊢
      rcases hcl : p.close f with ⟨e, pX⟩ | p1
      · simp [hcon]
      · simp
    · rw [if_neg ho] at hc ⊢
      exact hinv hc

theorem turn_on_inv_step (f : Faults) (st : Controller) (n : Int)
    (hinv : handleInv st) : handleInv (turn_on f st n).1 := by
  intro hc
  by_cases hg : st.is_connected = false ∨ st.connection = none
  · have hres : turn_on f st n = (st, Except.error PyError.notConnected) := by
      unfold turn_on
      rw [if_pos hg]
    rw [hres] at hc ⊢
    exact hinv hc
  · by_cases hch : 1 ≤ n ∧ n ≤ 4
    · have hg2 := hg
      push_neg at hg2
      rcases hcon : st.connection with _ | p
      · exact absurd hcon hg2.2
      · rw [turn_on_conn f st p n hg hch hcon] at hc ⊢
        rcases hres : writeTransaction f p [0xFF, n.toNat, 0x01] with ⟨e, pE⟩ | p3
        · simp
        · simp
    · have hres : turn_on f st n = (st, Except.error PyError.invalidChannel) := by
        unfold turn_on
        rw [if_neg hg, if_pos hch]
      rw [hres] at hc ⊢
      exact hinv hc

theorem turn_off_inv_step (f : Faults) (st : Controller) (n : Int)
    (hinv : handleInv st) : handleInv (turn_off f st n).1 := by
  intro hc
  by_cases hg : st.is_connected = false ∨ st.connection = none
  · have hres : turn_off f st n = (st, Except.error PyError.notConnected) := by
      unfold turn_off
      rw [if_pos hg]
    rw [hres] at hc ⊢
    exact hinv hc
  · by_cases hch : 1 ≤ n ∧ n ≤ 4
    · have hg2 := hg
      push_neg at hg2
      rcases hcon : st.connection with _ | p
      · exact absurd hcon hg2.2
      · rw [turn_off_conn f st p n hg hch hcon] at hc ⊢
        rcases hres : writeTransaction f p [0xFF, n.toNat, 0x00] with ⟨e, pE⟩ | p3
        · simp
        · simp
    · have hres : turn_off f st n = (st, Except.error PyError.invalidChannel) := by
        unfold turn_off
        rw [if_neg hg, if_pos hch]
      rw [hres] at hc ⊢
      exact hinv hc

theorem get_status_inv_step (f : Faults) (st : Controller)
    (hinv : handleInv st) : handleInv (get_status f st).1 := by
  intro hc
  by_cases hg : st.is_connected = false ∨ st.connection = none
  · have hres : get_status f st = (st, []) := by
      unfold get_status
      rw [if_pos hg]
    rw [hres] at hc ⊢
    exact hinv hc
  · have hg2 := hg
    push_neg at hg2
    rcases hcon : st.connection with _ | p
    · exact absurd hcon hg2.2
    · rw [get_status_conn f st p hg hcon] at hc ⊢
      rcases hres : statusTransaction f p with ⟨e, pE⟩ | ⟨p4, resp⟩
      · simp
      · by_cases hlen : resp.length = 4 <;> simp [hlen]

theorem ctrlStep_handleInv (op : CtrlOp) (st : Controller) (hinv : handleInv st)
    (hop : match op with
           | CtrlOp.connectOp _ _ => st.is_connected = false
           | _ => True) :
    handleInv (ctrlStep op st) := by
  cases op with
  | connectOp f fresh => exact connect_inv_step f fresh st hop
  | disconnectOp f => exact disconnect_inv_step f st hinv
  | turnOnOp f n => exact turn_on_inv_step f st n hinv
  | turnOffOp f n => exact turn_off_inv_step f st n hinv
  | statusOp f => exact get_status_inv_step f st hinv

theorem ctrlRun_handleInv (ops : List CtrlOp) :
    ∀ st, handleInv st → connectsOnlyWhenDisconnected ops st →
      handleInv (ctrlRun ops st) := by
  induction ops with
  | nil =>
    intro st h _
    exact h
  | cons op ops ih =>
    intro st h htr
    obtain ⟨h1, h2⟩ := htr
    exact ih (ctrlStep op st) (ctrlStep_handleInv op st h h1) h2

/-! ## Claim theorems -/

/-- C1: for every channel `ch ∈ [1,4]` and every boolean, `setChannel`
invoked while connected writes exactly the 3-byte frame
`[0xFF, ch, on ? 0x01 : 0x00]` to the serial stream (and nothing else)
before flushing: the wire log grows by exactly that frame and the output
buffer is flushed, with the command succeeding. -/
theorem setChannel_writes_exact_frame (st : Controller) (p : SerialPort) (ch : Int)
    (isOn : Bool) (hconn : st.is_connected = true) (hp : st.connection = some p)
    (hch : 1 ≤ ch ∧ ch ≤ 4) :
    setChannel noFaults st ch isOn =
      ({ st with connection := some { p with
            wire := p.wire ++ [0xFF, ch.toNat, if isOn then 0x01 else 0x00],
            outPending := 0 } },
       Except.ok ()) := by
  have hg : ¬(st.is_connected = false ∨ st.connection = none) := by simp [hconn, hp]
  cases isOn <;>
  · simp only [setChannel, if_true, if_false, Bool.false_eq_true, ite_true, ite_false]
    first
    | unfold turn_on
    | unfold turn_off
    rw [if_neg hg, if_neg (not_not_intro hch), hp]
    by_cases hw : 0 < p.outPending <;>
      simp [hw, writeTransaction, SerialPort.reset_output_buffer, SerialPort.write,
            SerialPort.flush, noFaults, SerialPort.out_waiting]

/-- Witness for C1 at channel 3, `on = true`, on a fresh connected
controller: the wire receives exactly `[0xFF, 0x03, 0x01]`. -/
theorem setChannel_writes_exact_frame_witness :
    setChannel noFaults sampleConnected 3 true =
      ({ com_port := "COM1", baudrate := 9600, timeout_ms := 2500,
         connection := some { is_open := true, inBuf := [], arriving := [],
                              outPending := 0, wire := [0xFF, 0x03, 0x01] },
         is_connected := true, closeCalls := 0 },
       Except.ok ()) := by
  have h := setChannel_writes_exact_frame sampleConnected freshPort 3 true rfl rfl
    (by decide)
  simpa [sampleConnected, freshPort] using h

/-- C3: `setChannel` checks its preconditions before any I/O: while
disconnected (flag false or no handle) it fails with the not-connected
error, and while connected with a channel outside `[1,4]` it fails with
the invalid-channel error; in both cases the controller state — and hence
the wire — is completely unchanged. -/
theorem setChannel_guard_no_io (f : Faults) (st : Controller) (ch : Int) (isOn : Bool) :
    ((st.is_connected = false ∨ st.connection = none) →
      setChannel f st ch isOn = (st, Except.error PyError.notConnected)) ∧
    (st.is_connected = true → st.connection ≠ none → ¬(1 ≤ ch ∧ ch ≤ 4) →
      setChannel f st ch isOn = (st, Except.error PyError.invalidChannel)) := by
  constructor
  · intro hg
    cases isOn <;> simp [setChannel, turn_on, turn_off, hg]
  · intro h1 h2 h3
    cases isOn <;> simp [setChannel, turn_on, turn_off, h1, h2, h3]

/-- Witness for C3: a never-connected controller rejects channel 2 with
the not-connected error, and a connected controller rejects channel 255
with the invalid-channel error, both leaving the state untouched. -/
theorem setChannel_guard_no_io_witness :
    setChannel noFaults (initController "COM1") 2 true =
      (initController "COM1", Except.error PyError.notConnected) ∧
    setChannel noFaults sampleConnected 255 false =
      (sampleConnected, Except.error PyError.invalidChannel) :=
  ⟨(setChannel_guard_no_io noFaults (initController "COM1") 2 true).1 (Or.inl rfl),
   (setChannel_guard_no_io noFaults sampleConnected 255 false).2 rfl
     (by decide) (by decide)⟩


/-- C2: when connected and the board delivers exactly 4 bytes within the
read timeout, `get_status` sends the fixed request frame
`[0xFF, 0x09, 0x00]`, reads exactly those 4 bytes, and returns the
mapping over all four channels in which the byte at 0-indexed offset `i`
decides channel `i+1`: ON exactly when the byte equals 1, OFF for every
other value. -/
theorem get_status_sends_and_decodes (st : Controller) (p : SerialPort)
    (b0 b1 b2 b3 : Nat) (hconn : st.is_connected = true)
    (hp : st.connection = some p) (harr : p.arriving = [b0, b1, b2, b3]) :
    get_status noFaults st =
      ({ st with connection := some { p with
            inBuf := [], arriving := [], outPending := 0,
            wire := p.wire ++ [0xFF, 0x09, 0x00] } },
       [("R1", if b0 = 1 then "ON" else "OFF"),
        ("R2", if b1 = 1 then "ON" else "OFF"),
        ("R3", if b2 = 1 then "ON" else "OFF"),
        ("R4", if b3 = 1 then "ON" else "OFF")]) := by
  have hg : ¬(st.is_connected = false ∨ st.connection = none) := by simp [hconn, hp]
  have hst : statusTransaction noFaults p =
      Except.ok ({ p with
          inBuf := [], arriving := [], outPending := 0,
          wire := p.wire ++ [0xFF, 0x09, 0x00] }, [b0, b1, b2, b3]) := by
    unfold statusTransaction
    by_cases hin : p.in_waiting > 0
    · simp [hin, SerialPort.reset_input_buffer, SerialPort.write, SerialPort.flush,
        SerialPort.read, noFaults, harr]
    · have hnil : p.inBuf = [] := by
        have h0 : ¬ 0 < p.inBuf.length := by simpa [SerialPort.in_waiting] using hin
        exact List.length_eq_zero.mp (Nat.eq_zero_of_not_pos h0)
      simp [hin, SerialPort.write, SerialPort.flush, SerialPort.read, noFaults,
        harr, hnil]
  rw [get_status_conn noFaults st p hg hp, hst]
  simp [decodeStatus, rkey1, rkey2, rkey3, rkey4]

/-- Witness for C2: wire bytes `[0x01, 0x00, 0x01, 0x00]` decode to
channels 1 and 3 ON, 2 and 4 OFF, and a byte `0x02` decodes its channel
as OFF; the request frame `[0xFF, 0x09, 0x00]` appears on the wire. -/
theorem get_status_sends_and_decodes_witness :
    get_status noFaults
      { com_port := "COM1", baudrate := 9600, timeout_ms := 2500,
        connection := some { is_open := true, inBuf := [], arriving := [1, 0, 1, 0],
                             outPending := 0, wire := [] },
        is_connected := true, closeCalls := 0 } =
      ({ com_port := "COM1", baudrate := 9600, timeout_ms := 2500,
         connection := some { is_open := true, inBuf := [], arriving := [],
                              outPending := 0, wire := [0xFF, 0x09, 0x00] },
         is_connected := true, closeCalls := 0 },
       [("R1", "ON"), ("R2", "OFF"), ("R3", "ON"), ("R4", "OFF")]) ∧
    get_status noFaults
      { com_port := "COM1", baudrate := 9600, timeout_ms := 2500,
        connection := some { is_open := true, inBuf := [], arriving := [2, 1, 0, 3],
                             outPending := 0, wire := [] },
        is_connected := true, closeCalls := 0 } =
      ({ com_port := "COM1", baudrate := 9600, timeout_ms := 2500,
         connection := some { is_open := true, inBuf := [], arriving := [],
                              outPending := 0, wire := [0xFF, 0x09, 0x00] },
         is_connected := true, closeCalls := 0 },
       [("R1", "OFF"), ("R2", "ON"), ("R3", "OFF"), ("R4", "OFF")]) := by
  constructor
  · have h := get_status_sends_and_decodes
      { com_port := "COM1", baudrate := 9600, timeout_ms := 2500,
        connection := some { is_open := true, inBuf := [], arriving := [1, 0, 1, 0],
                             outPending := 0, wire := [] },
        is_connected := true, closeCalls := 0 }
      { is_open := true, inBuf := [], arriving := [1, 0, 1, 0],
        outPending := 0, wire := [] } 1 0 1 0 rfl rfl rfl
    simpa using h
  · have h := get_status_sends_and_decodes
      { com_port := "COM1", baudrate := 9600, timeout_ms := 2500,
        connection := some { is_open := true, inBuf := [], arriving := [2, 1, 0, 3],
                             outPending := 0, wire := [] },
        is_connected := true, closeCalls := 0 }
      { is_open := true, inBuf := [], arriving := [2, 1, 0, 3],
        outPending := 0, wire := [] } 2 1 0 3 rfl rfl rfl
    simpa using h

/-- C4: `get_status` never raises (its result type is total): while
disconnected it returns the empty mapping with the state untouched; the
returned mapping is never partial (empty or all four channels); fewer
than 4 bytes delivered within the timeout yields the empty mapping; and
any transport fault during clearing, sending, flushing or reading yields
the empty mapping. -/
theorem get_status_best_effort (f : Faults) (st : Controller) :
    ((st.is_connected = false ∨ st.connection = none) → get_status f st = (st, [])) ∧
    ((get_status f st).2 = [] ∨ (get_status f st).2.length = 4) ∧
    (∀ p, st.connection = some p → p.arriving.length < 4 →
      (get_status f st).2 = []) ∧
    (∀ p, st.connection = some p →
      (f.writeFails = true ∨ f.flushFails = true ∨ f.readFails = true ∨
        (f.resetInputFails = true ∧ 0 < p.inBuf.length)) →
      (get_status f st).2 = []) := by
  refine ⟨?_, ?_, ?_, ?_⟩
  · intro hg
    simp [get_status, hg]
  · by_cases hg : st.is_connected = false ∨ st.connection = none
    · simp [get_status, hg]
    · have hgc := hg
      push_neg at hgc
      rcases hx : st.connection with _ | p
      · exact absurd hx hgc.2
      · rw [get_status_conn f st p hg hx]
        rcases hstep : statusTransaction f p with ⟨e1, pE⟩ | ⟨p4, response⟩
        · simp
        · by_cases hlen : response.length = 4
          · simp [hlen, decodeStatus_length]
          · simp [hlen]
  · intro p hp hlt
    by_cases hg : st.is_connected = false ∨ st.connection = none
    · simp [get_status, hg]
    · rw [get_status_conn f st p hg hp]
      rcases hstep : statusTransaction f p with ⟨e1, pE⟩ | ⟨p4, response⟩
      · simp
      · have hresp := statusTransaction_ok_resp f p p4 response hstep
        have hlen : ¬ response.length = 4 := by
          rw [hresp]
          simp only [List.length_take]
          omega
        simp [hlen]
  · intro p hp hfault
    by_cases hg : st.is_connected = false ∨ st.connection = none
    · simp [get_status, hg]
    · rw [get_status_conn f st p hg hp]
      obtain ⟨e, pE, herr⟩ := statusTransaction_error_of_fault f p hfault
      rw [herr]

/-- Witness for C4: a disconnected controller yields the empty mapping
with its state untouched; a connected controller that receives only 2
bytes before timeout yields the empty mapping, not a 2-entry one; and a
connected controller whose transport write raises yields the empty
mapping. -/
theorem get_status_best_effort_witness :
    get_status noFaults (initController "COM1") = (initController "COM1", []) ∧
    (get_status noFaults
      { com_port := "COM1", baudrate := 9600, timeout_ms := 2500,
        connection := some { is_open := true, inBuf := [], arriving := [1, 0],
                             outPending := 0, wire := [] },
        is_connected := true, closeCalls := 0 }).2 = [] ∧
    (get_status writeFailFaults sampleConnected).2 = [] := by
  refine ⟨?_, ?_, ?_⟩
  · exact (get_status_best_effort noFaults (initController "COM1")).1 (Or.inl rfl)
  · exact (get_status_best_effort noFaults
      { com_port := "COM1", baudrate := 9600, timeout_ms := 2500,
        connection := some { is_open := true, inBuf := [], arriving := [1, 0],
                             outPending := 0, wire := [] },
        is_connected := true, closeCalls := 0 }).2.2.1
      { is_open := true, inBuf := [], arriving := [1, 0], outPending := 0, wire := [] }
      rfl (by decide)
  · exact (get_status_best_effort writeFailFaults sampleConnected).2.2.2
      freshPort rfl (Or.inl rfl)

/-- C5: for either value of `on`, if `setChannel(ch, on)` fails with a
transport I/O error during the clear/write/flush sequence, the wrapped
command error carrying the channel and cause is raised to the caller,
and the dashboard's cached relay states are left completely unchanged,
so a retry is safe. -/
theorem setChannel_io_failure_preserves_cache (f : Faults) (d : Dashboard)
    (ctrl : Controller) (p : SerialPort) (ch : Int) (isOn : Bool)
    (hd : d.controller = some ctrl) (hconn : ctrl.is_connected = true)
    (hp : ctrl.connection = some p) (hch : 1 ≤ ch ∧ ch ≤ 4)
    (hfault : f.writeFails = true ∨ f.flushFails = true ∨
      (f.resetOutputFails = true ∧ 0 < p.outPending)) :
    (∃ cause, (setChannel f ctrl ch isOn).2 =
        Except.error (if isOn then PyError.turnOnFailed ch cause
                      else PyError.turnOffFailed ch cause)) ∧
    (if isOn then turn_relay_on f d ch else turn_relay_off f d ch).relay_states
      = d.relay_states := by
  have hg : ¬(ctrl.is_connected = false ∨ ctrl.connection = none) := by
    simp [hconn, hp]
  cases isOn with
  | true =>
    obtain ⟨e, pE, herr⟩ :=
      writeTransaction_error_of_fault f p [0xFF, ch.toNat, 0x01] hfault
    have hres : turn_on f ctrl ch =
        ({ ctrl with connection := some pE },
         Except.error (PyError.turnOnFailed ch e)) := by
      rw [turn_on_conn f ctrl p ch hg hch hp, herr]
    constructor
    · exact ⟨e, by simp [setChannel, hres]⟩
    · show (turn_relay_on f d ch).relay_states = d.relay_states
      unfold turn_relay_on
      rw [hd]
      simp [hconn, hres]
  | false =>
    obtain ⟨e, pE, herr⟩ :=
      writeTransaction_error_of_fault f p [0xFF, ch.toNat, 0x00] hfault
    have hres : turn_off f ctrl ch =
        ({ ctrl with connection := some pE },
         Except.error (PyError.turnOffFailed ch e)) := by
      rw [turn_off_conn f ctrl p ch hg hch hp, herr]
    constructor
    · exact ⟨e, by simp [setChannel, hres]⟩
    · show (turn_relay_off f d ch).relay_states = d.relay_states
      unfold turn_relay_off
      rw [hd]
      simp [hconn, hres]

/-- Witness for C5: with a transport whose `write` raises, a connected
dashboard commanding channel 1 on sees the wrapped turn-on error, and
commanding channel 2 off sees the wrapped turn-off error; in both cases
its cache is unchanged. -/
theorem setChannel_io_failure_preserves_cache_witness :
    ((∃ cause, (setChannel writeFailFaults sampleConnected 1 true).2 =
        Except.error (PyError.turnOnFailed 1 cause)) ∧
     (turn_relay_on writeFailFaults sampleDashboard 1).relay_states =
       sampleDashboard.relay_states) ∧
    ((∃ cause, (setChannel writeFailFaults sampleConnected 2 false).2 =
        Except.error (PyError.turnOffFailed 2 cause)) ∧
     (turn_relay_off writeFailFaults sampleDashboard 2).relay_states =
       sampleDashboard.relay_states) :=
  ⟨setChannel_io_failure_preserves_cache writeFailFaults sampleDashboard
     sampleConnected freshPort 1 true rfl rfl rfl (by decide) (Or.inl rfl),
   setChannel_io_failure_preserves_cache writeFailFaults sampleDashboard
     sampleConnected freshPort 2 false rfl rfl rfl (by decide) (Or.inl rfl)⟩

/-- Counterexample to C6: `disconnect` is not exception-free in every
state — on a connected controller whose transport `close` raises, the
failure propagates (the `close` call is not wrapped in the source) and
the driver is still marked connected afterwards. -/
theorem disconnect_throws_on_close_failure :
    (disconnect closeFailFaults sampleConnected).2 =
      Except.error (PyError.raw PortError.closeErr) ∧
    (disconnect closeFailFaults sampleConnected).1.is_connected = true :=
  ⟨rfl, rfl⟩

/-- C6 (amended): `disconnect` never throws provided the underlying
`close` does not fail; in that case a driver holding an open handle
transitions to disconnected, and a driver already marked disconnected
stays disconnected. -/
theorem disconnect_nothrow (f : Faults) (st : Controller)
    (h : f.closeFails = false) :
    (disconnect f st).2 = Except.ok () ∧
    (∀ p, st.connection = some p → p.is_open = true →
      (disconnect f st).1.is_connected = false) ∧
    (st.is_connected = false → (disconnect f st).1.is_connected = false) := by
  rcases hc : st.connection with _ | p
  · rw [disconnect_none f st hc]
    refine ⟨rfl, ?_, ?_⟩
    · intro p1 hp1
      exact absurd hp1 (by simp)
    · intro h2
      exact h2
  · rw [disconnect_some f st p hc]
    by_cases ho : p.is_open
    · rw [if_pos ho]
      simp [SerialPort.close, h]
    · rw [if_neg ho]
      refine ⟨rfl, ?_, ?_⟩
      · intro p1 hp1 hop
        injection hp1 with hpp
        rw [hpp] at ho
        exact absurd hop ho
      · intro h2
        exact h2

/-- Witness for C6 (amended): on the nominal transport, disconnecting a
connected controller succeeds and leaves it disconnected. -/
theorem disconnect_nothrow_witness :
    (disconnect noFaults sampleConnected).2 = Except.ok () ∧
    (∀ p, sampleConnected.connection = some p → p.is_open = true →
      (disconnect noFaults sampleConnected).1.is_connected = false) ∧
    (sampleConnected.is_connected = false →
      (disconnect noFaults sampleConnected).1.is_connected = false) :=
  disconnect_nothrow noFaults sampleConnected rfl

/-- C7: if `connect` fails to open or configure the stream from the
disconnected state, the driver stays disconnected with a null handle, the
raised error carries the device identifier and the underlying cause, and
a handle that was actually opened (open succeeded, configuring failed)
receives exactly one close call — no handle leak. -/
theorem connect_failure_cleanup (f : Faults) (fresh : SerialPort) (st : Controller)
    (hdisc : st.is_connected = false) (hnone : st.connection = none)
    (hfail : f.openFails = true ∨ f.resetInputFails = true ∨
      f.resetOutputFails = true) :
    (connect f fresh st).1.is_connected = false ∧
    (connect f fresh st).1.connection = none ∧
    (∃ cause, (connect f fresh st).2 =
      Except.error (PyError.connectFailed st.com_port cause)) ∧
    (f.openFails = false → (connect f fresh st).1.closeCalls = st.closeCalls + 1) ∧
    (f.openFails = true → (connect f fresh st).1.closeCalls = st.closeCalls) := by
  by_cases ho : f.openFails = true
  · have hres : connect f fresh st =
        (st, Except.error (PyError.connectFailed st.com_port PortError.openErr)) := by
      simp [connect, ho, hnone]
    rw [hres]
    exact ⟨hdisc, hnone, ⟨PortError.openErr, rfl⟩,
      fun hfalse => absurd ho (by simp [hfalse]), fun _ => rfl⟩
  · by_cases hri : f.resetInputFails = true
    · have hres : connect f fresh st =
          ({ st with connection := none, closeCalls := st.closeCalls + 1 },
           Except.error (PyError.connectFailed st.com_port PortError.resetInputErr)) := by
        simp [connect, ho, hri, SerialPort.reset_input_buffer]
      rw [hres]
      exact ⟨hdisc, rfl, ⟨PortError.resetInputErr, rfl⟩,
        fun _ => rfl, fun htrue => absurd htrue ho⟩
    · have hro : f.resetOutputFails = true := by
        rcases hfail with h1 | h1 | h1
        · exact absurd h1 ho
        · exact absurd h1 hri
        · exact h1
      have hres : connect f fresh st =
          ({ st with connection := none, closeCalls := st.closeCalls + 1 },
           Except.error (PyError.connectFailed st.com_port PortError.resetOutputErr)) := by
        simp [connect, ho, hri, hro, SerialPort.reset_input_buffer,
          SerialPort.reset_output_buffer]
      rw [hres]
      exact ⟨hdisc, rfl, ⟨PortError.resetOutputErr, rfl⟩,
        fun _ => rfl, fun htrue => absurd htrue ho⟩

/-- Witness for C7: a failing open on a never-connected controller leaves
it disconnected with no handle and no close call, and raises the wrapped
connect error for device "COM1". -/
theorem connect_failure_cleanup_witness :
    (connect openFailFaults freshPort (initController "COM1")).1.is_connected = false ∧
    (connect openFailFaults freshPort (initController "COM1")).1.connection = none ∧
    (∃ cause, (connect openFailFaults freshPort (initController "COM1")).2 =
      Except.error (PyError.connectFailed "COM1" cause)) ∧
    (openFailFaults.openFails = false →
      (connect openFailFaults freshPort (initController "COM1")).1.closeCalls =
        (initController "COM1").closeCalls + 1) ∧
    (openFailFaults.openFails = true →
      (connect openFailFaults freshPort (initController "COM1")).1.closeCalls =
        (initController "COM1").closeCalls) :=
  connect_failure_cleanup openFailFaults freshPort (initController "COM1")
    rfl rfl (Or.inl rfl)

/-- C8: `disconnect` is idempotent — on a never-connected driver it is an
exact no-op with no error, and after any disconnect that returned
normally a second disconnect (under any transport environment) changes
nothing and performs no further close call. -/
theorem disconnect_idempotent (f g : Faults) (st : Controller) :
    (st.connection = none → disconnect f st = (st, Except.ok ())) ∧
    ((disconnect f st).2 = Except.ok () →
      disconnect g (disconnect f st).1 = ((disconnect f st).1, Except.ok ())) := by
  constructor
  · intro h
    exact disconnect_none f st h
  · intro hok
    rcases hc : st.connection with _ | p
    · rw [disconnect_none f st hc]
      exact disconnect_none g st hc
    · rw [disconnect_some f st p hc] at hok ⊢
      by_cases ho : p.is_open
      · rw [if_pos ho] at hok ⊢
        rcases hcl : p.close f with ⟨e, pX⟩ | p1
        · rw [hcl] at hok
          simp at hok
        · have hp1 : p1.is_open = false := by
            unfold SerialPort.close at hcl
            split_ifs at hcl
            injection hcl with h1
            rw [← h1]
          rw [disconnect_some g _ p1 rfl, if_neg (by simp [hp1])]
      · rw [if_neg ho]
        rw [disconnect_some g st p hc, if_neg ho]

/-- Witness for C8: disconnecting a never-connected controller is a
no-op, and after a normal disconnect of a connected controller a second
disconnect — even one whose `close` would raise — changes nothing. -/
theorem disconnect_idempotent_witness :
    disconnect noFaults (initController "COM1") =
      (initController "COM1", Except.ok ()) ∧
    disconnect closeFailFaults (disconnect noFaults sampleConnected).1 =
      ((disconnect noFaults sampleConnected).1, Except.ok ()) :=
  ⟨(disconnect_idempotent noFaults noFaults (initController "COM1")).1 rfl,
   (disconnect_idempotent noFaults closeFailFaults sampleConnected).2 rfl⟩

/-- C9: after a successful `setChannel(ch, true)` issued through the
dashboard, the cached relay state for `ch` reads true, and it continues
to read true across every subsequent trace of dashboard operations that
contains neither a write to `ch` nor a status decode assigning `ch`; the
update is optimistic — it is made on command success alone, with no
hardware confirmation read. -/
theorem cache_roundtrip (f : Faults) (d : Dashboard) (ctrl : Controller) (ch : Int)
    (hd : d.controller = some ctrl) (hconn : ctrl.is_connected = true)
    (hok : (turn_on f ctrl ch).2 = Except.ok ()) :
    (turn_relay_on f d ch).relay_states.get ch = true ∧
    (∀ ops, traceAvoidsChannel ch ops (turn_relay_on f d ch) →
      (dashRun ops (turn_relay_on f d ch)).relay_states.get ch = true) := by
  have hch := turn_on_ok_valid f ctrl ch hok
  have h1 : (turn_relay_on f d ch).relay_states.get ch = true := by
    rw [turn_relay_on_conn f d ctrl ch hd hconn]
    rcases hres : turn_on f ctrl ch with ⟨c1, r⟩
    rw [hres] at hok
    cases r with
    | error e => simp at hok
    | ok u => simp [RelayStates.get_set_self d.relay_states ch true hch]
  exact ⟨h1, fun ops htr => by
    rw [dashRun_preserves_get ch ops (turn_relay_on f d ch) htr, h1]⟩

/-- Witness for C9: turning channel 2 on through a connected dashboard
caches true for channel 2, and a later write to channel 1 leaves it
true. -/
theorem cache_roundtrip_witness :
    (turn_relay_on noFaults sampleDashboard 2).relay_states.get 2 = true ∧
    (dashRun [DashOp.relayOn noFaults 1]
      (turn_relay_on noFaults sampleDashboard 2)).relay_states.get 2 = true := by
  have h := cache_roundtrip noFaults sampleDashboard sampleConnected 2 rfl rfl rfl
  exact ⟨h.1, h.2 [DashOp.relayOn noFaults 1] ⟨show (1 : Int) ≠ 2 by decide, trivial⟩⟩

/-- Counterexample to C10: the invariant "is_connected implies a non-null
handle" is not kept by every operation sequence — a `connect` that fails
while the driver is already connected closes and nulls the handle in its
except-handler but leaves `is_connected` true. -/
theorem handle_invariant_cex :
    ¬ handleInv (ctrlRun
        [CtrlOp.connectOp noFaults freshPort,
         CtrlOp.connectOp openFailFaults freshPort]
        (initController "COM1")) :=
  fun h => h rfl rfl

/-- C10 (amended): for every operation sequence from construction in
which `connect` is only invoked while `is_connected` is false — the
discipline the dashboard follows, since it builds a fresh controller per
connection attempt — whenever `is_connected` is true the connection
handle is non-null. -/
theorem handle_invariant_disciplined (ops : List CtrlOp) (port : String)
    (h : connectsOnlyWhenDisconnected ops (initController port))
    (hc : (ctrlRun ops (initController port)).is_connected = true) :
    (ctrlRun ops (initController port)).connection ≠ none :=
  ctrlRun_handleInv ops (initController port)
    (fun hfalse => absurd hfalse (by simp [initController])) h hc

/-- Witness for C10 (amended): after a successful connect from the
initial state, the handle is non-null. -/
theorem handle_invariant_disciplined_witness :
    (ctrlRun [CtrlOp.connectOp noFaults freshPort]
      (initController "COM1")).connection ≠ none :=
  handle_invariant_disciplined [CtrlOp.connectOp noFaults freshPort] "COM1"
    ⟨rfl, trivial⟩ rfl

end KMRelay
